import Mathlib

/-!
# Verification of the temporal memory engine (`temporal_mem`)

Shallow embedding of the Python sources under `src/temporal_mem/`:

* `models.py`            — `FactCandidate`, `MemoryModel` (pydantic models)
* `storage/sqlite_store.py` — `SqliteStore` (the metadata store)
* `temporal/engine.py`   — `TemporalEngine` (classification, policies, conflicts)
* `memory.py`            — `Memory` facade (`add`, `list`, `search`, `update`, ranking)
* `llm/extractor.py`     — `FactExtractor`
* `embedding/openai_embedder.py` — `OpenAIEmbedder`
* `storage/qdrant_store.py`      — `QdrantStore`

Modelling conventions:

* Timestamps: the sources keep ISO 8601 strings and parse them with
  `_parse_iso_maybe`, which returns `None` for missing or unparsable strings.
  We model a timestamp field as `Option Int` (seconds since epoch): `none`
  stands for a missing/unparsable string, `some t` for a string that parses
  to the instant `t`.  `datetime.utcnow()` becomes an explicit `now : Int`
  parameter.  `timedelta(days = d)` becomes `d * 86400` seconds and
  `(a - b).days` becomes `Int.fdiv (a - b) 86400` (Python's `timedelta.days`
  floors toward negative infinity).
* Python floats (`confidence`, similarity scores) are modelled as `Rat`;
  every constant involved (0.5, 0.1, 0.05, 0.2, 0.9) is exactly
  representable and only sums and comparisons occur.
* A Python exception is modelled with `Except PyErr`.  pydantic `BaseModel`
  raises `AttributeError` when an attribute that is not a declared field is
  read; Python raises `TypeError` when a function is called with a missing
  required positional argument or an unexpected keyword argument.  Both
  occur in these sources and are modelled explicitly below, each with a doc
  comment pointing at the offending line.
* The SQLite table is modelled as a `List MemoryModel` in rowid order;
  `INSERT OR REPLACE` removes the row with the same primary key and appends
  the new row at the end.
-/

/-- A Python exception relevant to these sources. -/
inductive PyErr where
  /-- `AttributeError`: object of the named class has no attribute of the
  named attribute. -/
  | attributeError (cls att : String)
  /-- `TypeError` raised at a call site (missing positional argument or
  unexpected keyword argument). -/
  | typeError (msg : String)
  deriving Repr, DecidableEq

/-- `FactCandidate` from `models.py` lines 5-9.  Its declared pydantic fields
are exactly `text`, `category`, `slot` and `confidence`; it declares neither
`kind` nor `duration_in_days` (pydantic raises `AttributeError` when those
names are read, see `FactCandidate.attrDurationInDays` and
`FactCandidate.attrKind`). -/
structure FactCandidate where
  text : String
  category : String
  slot : Option String := none
  confidence : Rat := 1
  deriving Repr, DecidableEq

/-- Python attribute access `fact.duration_in_days`.  `FactCandidate`
(`models.py` lines 5-9) declares only the fields `text`, `category`, `slot`,
`confidence`, so pydantic raises `AttributeError`.  The value type `Option
Int` is what the attribute would hold if it existed (`duration_in_days:
Optional[int]`, per the extraction prompt and the spec). -/
def FactCandidate.attrDurationInDays (_f : FactCandidate) :
    Except PyErr (Option Int) :=
  .error (.attributeError "FactCandidate" "duration_in_days")

/-- Python attribute access `fact.kind`.  `FactCandidate` (`models.py` lines
5-9) declares no field `kind`, so pydantic raises `AttributeError`. -/
def FactCandidate.attrKind (_f : FactCandidate) :
    Except PyErr (Option String) :=
  .error (.attributeError "FactCandidate" "kind")

/-- `MemoryModel` from `models.py` lines 12-25.  Declared pydantic fields:
`id`, `user_id`, `memory`, `type`, `slot`, `status`, `created_at`,
`valid_until`, `decay_half_life_days`, `confidence`, `supersedes`,
`source_turn_id`, `extra`.  There is no field `kind`
(see `MemoryModel.attrKind`).  `created_at` is a required string and
`valid_until` an optional string in the source; both are modelled as
`Option Int` per the timestamp convention in the file header. -/
structure MemoryModel where
  id : String
  user_id : String
  memory : String
  type : String
  slot : Option String := none
  status : String := "active"
  created_at : Option Int
  valid_until : Option Int := none
  decay_half_life_days : Option Int := none
  confidence : Rat := 1
  supersedes : List String := []
  source_turn_id : Option String := none
  extra : List (String × String) := []
  deriving Repr, DecidableEq

/-- Python attribute access `mem.kind` / `old.kind`.  `MemoryModel`
(`models.py` lines 12-25) declares no field `kind`, so pydantic raises
`AttributeError`.  Read at `memory.py` line 397 (`Memory.update`) and line
445 (`Memory._serialize_memory`). -/
def MemoryModel.attrKind (_m : MemoryModel) : Except PyErr (Option String) :=
  .error (.attributeError "MemoryModel" "kind")

/-! ## Metadata store (`storage/sqlite_store.py`) -/

/-- The `memories` table of `SqliteStore`, rows in rowid order. -/
abbrev Store := List MemoryModel

namespace SqliteStore

/-- `SqliteStore.insert` (lines 70-106): `INSERT OR REPLACE` keyed on the
primary key `id` — the old row with the same id (if any) is removed and the
new row appended. -/
def insert (store : Store) (mem : MemoryModel) : Store :=
  store.filter (fun r => r.id ≠ mem.id) ++ [mem]

/-- `SqliteStore.get_by_id` (lines 108-114): `SELECT ... WHERE id = ? LIMIT 1`. -/
def getById (store : Store) (memId : String) : Option MemoryModel :=
  store.find? (fun r => r.id == memId)

/-- `SqliteStore.update_status` (lines 116-122):
`UPDATE memories SET status = ? WHERE id = ?`. -/
def updateStatus (store : Store) (memId : String) (newStatus : String) : Store :=
  store.map (fun r => if r.id = memId then { r with status := newStatus } else r)

/-- `SqliteStore.get_active_by_slot` (lines 124-136): rows with the given
`user_id`, `slot` and `status = 'active'`, in table order (the query has no
`ORDER BY`).  SQL `slot = ?` compares against a non-NULL parameter, so rows
with a NULL slot never match. -/
def getActiveBySlot (store : Store) (userId slot : String) : List MemoryModel :=
  store.filter (fun r =>
    r.user_id == userId && r.slot == some slot && r.status == "active")

/-- Stable insertion step for `sortBy`: `x` goes in front of the first
element it is not strictly below. -/
def insertSorted (lt : MemoryModel → MemoryModel → Bool) (x : MemoryModel) :
    List MemoryModel → List MemoryModel
  | [] => [x]
  | y :: ys => if lt x y then y :: insertSorted lt x ys else x :: y :: ys

/-- Stable insertion sort parameterised by a strict "comes after" test. -/
def sortBy (lt : MemoryModel → MemoryModel → Bool) : List MemoryModel → List MemoryModel
  | [] => []
  | x :: xs => insertSorted lt x (sortBy lt xs)

/-- Strict comparison used by `list_by_user`'s
`ORDER BY datetime(created_at) DESC`: `a` sorts after `b` when its
`created_at` key is strictly smaller; `datetime(NULL or unparsable) = NULL`
and SQLite treats NULL as smaller than every value (so NULL keys come last
under DESC). -/
def createdBefore (a b : MemoryModel) : Bool :=
  match a.created_at, b.created_at with
  | none, none => false
  | none, some _ => true
  | some _, none => false
  | some x, some y => x < y

/-- `SqliteStore.list_by_user` (lines 138-150): rows with the given
`user_id` and `status`, ordered by `created_at` descending. -/
def listByUser (store : Store) (userId status : String) : List MemoryModel :=
  sortBy createdBefore
    (store.filter (fun r => r.user_id == userId && r.status == status))

/-- `SqliteStore.list_by_ids` (lines 152-165): rows whose id is in the given
list, in table order. -/
def listByIds (store : Store) (ids : List String) : List MemoryModel :=
  store.filter (fun r => ids.contains r.id)

end SqliteStore

/-! ## Temporal engine (`temporal/engine.py`) -/

namespace TemporalEngine

/-- `TemporalEngine._map_category_to_type` (engine.py lines 31-42): the fixed
category table; the wildcard arm makes every unknown category `"other"`. -/
def mapCategoryToType (category : String) : String :=
  match category with
  | "profile" => "profile_fact"
  | "preference" => "preference"
  | "event" => "episodic_event"
  | "temp_state" => "temp_state"
  | _ => "other"

/-- Body of `TemporalEngine._apply_policies` (engine.py lines 50-77) after
the read of `fact.duration_in_days` has produced the value `d` — the
two-tier policy: an explicit positive duration wins
(`valid_until = now + days`, `decay_half_life_days = max(1, days // 2) or 1`,
where `max(1, _)` is already positive so the `or 1` is a no-op); otherwise
the type defaults apply. -/
def applyPoliciesBody (now : Int) (mem : MemoryModel) (d : Option Int) :
    MemoryModel :=
  match d with
  | some days =>
    if days > 0 then
      { mem with
        valid_until := some (now + days * 86400),
        decay_half_life_days := some (max 1 (Int.fdiv days 2)) }
    else applyPoliciesDefaults now mem
  | none => applyPoliciesDefaults now mem
where
  /-- Tier 2 of `_apply_policies` (engine.py lines 60-77): type defaults. -/
  applyPoliciesDefaults (now : Int) (mem : MemoryModel) : MemoryModel :=
    if mem.type = "temp_state" then
      { mem with decay_half_life_days := some 1,
                 valid_until := some (now + 3 * 86400) }
    else if mem.type = "preference" then
      { mem with decay_half_life_days := some 60, valid_until := none }
    else if mem.type = "profile_fact" then
      { mem with decay_half_life_days := none, valid_until := none }
    else if mem.type = "episodic_event" then
      { mem with decay_half_life_days := some 7, valid_until := none }
    else
      { mem with decay_half_life_days := some 30, valid_until := none }

/-- `TemporalEngine._apply_policies` (engine.py lines 44-77).  Its first
statement reads `fact.duration_in_days` (line 53); `FactCandidate` declares
no such field, so the read raises `AttributeError` and the rest of the body
(`applyPoliciesBody`) is unreachable. -/
def applyPolicies (now : Int) (mem : MemoryModel) (fact : FactCandidate) :
    Except PyErr MemoryModel :=
  match fact.attrDurationInDays with
  | .error e => .error e
  | .ok d => .ok (applyPoliciesBody now mem d)

/-- `TemporalEngine._resolve_conflicts` (engine.py lines 79-94).  `if not
mem.slot: return mem` skips both a `None` slot and an empty-string slot
(Python falsiness); otherwise every active record for `(user_id, slot)` is
archived in query order and, when at least one was found, `mem.supersedes`
is overwritten with their ids (`if supersedes_ids:` leaves `mem.supersedes`
untouched when the list is empty). -/
def resolveConflicts (store : Store) (mem : MemoryModel) :
    Store × MemoryModel :=
  match mem.slot with
  | none => (store, mem)
  | some s =>
    if s = "" then (store, mem)
    else
      let existing := SqliteStore.getActiveBySlot store mem.user_id s
      let ids := existing.map (fun r => r.id)
      let store2 :=
        ids.foldl (fun st i => SqliteStore.updateStatus st i "archived") store
      let mem2 := if ids = [] then mem else { mem with supersedes := ids }
      (store2, mem2)

/-- The call `self._apply_policies(mem)` at engine.py line 125:
`_apply_policies` is declared with two required parameters `(mem, fact)`
(line 44) but is invoked with `mem` only, so Python raises `TypeError`
before the body of `_apply_policies` runs. -/
def applyPoliciesCallMissingArg (_mem : MemoryModel) : Except PyErr MemoryModel :=
  .error (.typeError "applyPolicies missing 1 required positional argument: fact")

/-- `TemporalEngine.from_fact_candidate` (engine.py lines 100-127).  `newId`
stands for the fresh `str(uuid4())`; it never becomes observable because the
call `self._apply_policies(mem)` (line 125) raises `TypeError` (missing
`fact` argument) before the record escapes, so `_resolve_conflicts` (line
126) is never reached either. -/
def fromFactCandidate (now : Int) (newId : String) (fact : FactCandidate)
    (userId : String) (sourceTurnId : Option String) :
    Store → Store × Except PyErr MemoryModel := fun store =>
  let memType := mapCategoryToType fact.category
  let mem : MemoryModel :=
    { id := newId
      user_id := userId
      memory := fact.text
      type := memType
      slot := fact.slot
      status := "active"
      created_at := some now
      valid_until := none
      decay_half_life_days := none
      confidence := fact.confidence
      supersedes := []
      source_turn_id := sourceTurnId
      extra := [] }
  match applyPoliciesCallMissingArg mem with
  | .error e => (store, .error e)
  | .ok mem1 =>
    let (store2, mem2) := resolveConflicts store mem1
    (store2, .ok mem2)

/-- `TemporalEngine.process_write_batch` (engine.py lines 129-151): drop
candidates with `confidence < 0.5`, then map the survivors through
`from_fact_candidate` (whose `TypeError` propagates — there is no handler
in this method or in `Memory.add`).  Each surviving candidate would receive
a fresh uuid; the id is passed as `newId` and is never observable because
`from_fact_candidate` raises before returning. -/
def processWriteBatch (now : Int) (newId : String)
    (facts : List FactCandidate) (userId : String)
    (sourceTurnId : Option String) (store : Store) :
    Store × Except PyErr (List MemoryModel) :=
  match facts with
  | [] => (store, .ok [])
  | fact :: rest =>
    if fact.confidence < (1 : Rat) / 2 then
      processWriteBatch now newId rest userId sourceTurnId store
    else
      match fromFactCandidate now newId fact userId sourceTurnId store with
      | (store1, .error e) => (store1, .error e)
      | (store1, .ok mem) =>
        match processWriteBatch now newId rest userId sourceTurnId store1 with
        | (store2, .error e) => (store2, .error e)
        | (store2, .ok mems) => (store2, .ok (mem :: mems))

/-- `TemporalEngine._type_and_slot_from_fact` (engine.py lines 167-188).
Its first executable statement reads `fact.kind` (line 175); `FactCandidate`
declares no field `kind`, so the read raises `AttributeError`.  The
remainder — the kind table and the category fallback — is unreachable; it is
kept here as `typeAndSlotBody` exactly as written in the source.  Note also
that no caller in the sources ever invokes `_type_and_slot_from_fact`
(`from_fact_candidate` uses `_map_category_to_type` and `fact.slot`
directly). -/
def typeAndSlotFromFact (fact : FactCandidate) :
    Except PyErr (String × Option String) :=
  match fact.attrKind with
  | .error e => .error e
  | .ok kind => .ok (typeAndSlotBody fact kind)
where
  /-- Lines 175-188 of engine.py, given the value of `fact.kind`. -/
  typeAndSlotBody (fact : FactCandidate) (kind : Option String) :
      String × Option String :=
    if kind = some "home_location" then ("profile_fact", some "home_location")
    else if kind = some "current_location" then ("temp_state", some "current_location")
    else if kind = some "trip" then ("episodic_event", some "trip")
    else
      let memType := mapCategoryToType fact.category
      let slot := match fact.slot with
        | some s => if s = "" then none else some s
        | none => none
      (memType, slot)

end TemporalEngine

/-! ## Memory facade (`memory.py`) -/

namespace Memory

open SqliteStore TemporalEngine

/-- The call `self.metadata_store.expire_user_memories(user_id)` at
memory.py line 99: `SqliteStore` (sqlite_store.py lines 10-168) defines no
method `expire_user_memories`, so the call raises `AttributeError`. -/
def storeExpireUserMemories (_store : Store) (_userId : String) :
    Except PyErr Nat :=
  .error (.attributeError "SqliteStore" "expire_user_memories")

/-- `Memory._lazy_expire_user` (memory.py lines 85-104).  The body calls
`expire_user_memories`, which raises `AttributeError`
(`storeExpireUserMemories`); the surrounding `except Exception` swallows the
exception and only prints, so the store is returned unchanged — the "lazy
expiration" never transitions any record. -/
def lazyExpireUser (store : Store) (userId : String) : Store :=
  match storeExpireUserMemories store userId with
  | .error _ => store
  | .ok _ => store

/-- The serialized dictionary produced by `Memory._serialize_memory`
(memory.py lines 437-454), had it completed: one entry per key of the dict
literal, including the `kind` entry whose evaluation in fact raises. -/
structure SerializedMemory where
  id : String
  user_id : String
  memory : String
  type : String
  slot : Option String
  kind : Option String
  status : String
  created_at : Option Int
  valid_until : Option Int
  decay_half_life_days : Option Int
  confidence : Rat
  supersedes : List String
  source_turn_id : Option String
  extra : List (String × String)
  deriving Repr, DecidableEq

/-- `Memory._serialize_memory` (memory.py lines 437-454).  The dict literal
evaluates its values in order; the entry `"kind": mem.kind` (line 445) reads
an attribute `MemoryModel` does not declare, so the method raises
`AttributeError` for every input and the dictionary is never produced. -/
def serializeMemory (mem : MemoryModel) : Except PyErr SerializedMemory :=
  match mem.attrKind with
  | .error e => .error e
  | .ok k =>
    .ok { id := mem.id, user_id := mem.user_id, memory := mem.memory
          type := mem.type, slot := mem.slot, kind := k
          status := mem.status, created_at := mem.created_at
          valid_until := mem.valid_until
          decay_half_life_days := mem.decay_half_life_days
          confidence := mem.confidence, supersedes := mem.supersedes
          source_turn_id := mem.source_turn_id, extra := mem.extra }

/-- `(now - created).days > limit` as in `Memory._compute_rank_score` lines
342 and 345: Python `timedelta.days` floors the span toward negative
infinity; a `None` (missing/unparsable) `created_at` short-circuits the
conjunction to false. -/
def olderThanDays (created : Option Int) (now : Int) (limit : Int) : Bool :=
  match created with
  | none => false
  | some c => Int.fdiv (now - c) 86400 > limit

/-- `Memory._compute_rank_score` (memory.py lines 313-355): start from the
similarity score; subtract 0.5 when `valid_until` parses and `now` is
strictly past it; then one `if/elif` chain on the type (profile_fact +0.1,
preference +0.05, stale temp_state −0.1, stale episodic_event −0.05); then
one `if/elif` chain on confidence (< 0.5 → −0.2, > 0.9 → +0.05). -/
def computeRankScore (baseScore : Rat) (mem : MemoryModel) (now : Int) : Rat :=
  let score := baseScore
  let score :=
    match mem.valid_until with
    | some v => if now > v then score - 1/2 else score
    | none => score
  let score :=
    if mem.type = "profile_fact" then score + 1/10
    else if mem.type = "preference" then score + 1/20
    else if mem.type = "temp_state" ∧ olderThanDays mem.created_at now 7 then
      score - 1/10
    else if mem.type = "episodic_event" ∧ olderThanDays mem.created_at now 30 then
      score - 1/20
    else score
  if mem.confidence < 1/2 then score - 1/5
  else if mem.confidence > 9/10 then score + 1/20
  else score

/-- The Hybrid Ranker contract as the spec words it (§4.5 / claim C5): the
base score plus every matching additive adjustment, each written as an
independent additive term so that "apply all that match" and
order-independence are built into the statement.  This definition follows
the spec, not the source; `rank_score_matches_spec` compares it with
`computeRankScore`, which is translated from the source. -/
def rankScoreSpec (baseScore : Rat) (mem : MemoryModel) (now : Int) : Rat :=
  baseScore
  + (match mem.valid_until with
     | some v => if now > v then -(1/2 : Rat) else 0
     | none => 0)
  + (if mem.type = "profile_fact" then (1/10 : Rat) else 0)
  + (if mem.type = "preference" then (1/20 : Rat) else 0)
  + (if mem.type = "temp_state" ∧ olderThanDays mem.created_at now 7 then
       -(1/10 : Rat) else 0)
  + (if mem.type = "episodic_event" ∧ olderThanDays mem.created_at now 30 then
       -(1/20 : Rat) else 0)
  + (if mem.confidence < 1/2 then -(1/5 : Rat) else 0)
  + (if mem.confidence > 9/10 then (1/20 : Rat) else 0)

/-- The call `self.embedder.embed_one(text)` (memory.py lines 171, 254,
412, 473): `OpenAIEmbedder` (openai_embedder.py) defines a method `embed`,
not `embed_one`, so the call raises `AttributeError`. -/
def embedderEmbedOne (_text : String) : Except PyErr (List Rat) :=
  .error (.attributeError "OpenAIEmbedder" "embed_one")

/-- The call `self.vector_store.search(query_vector=..., user_id=...,
limit=..., filters=...)` at memory.py lines 261-266: `QdrantStore.search`
(qdrant_store.py) is declared as `search(self, user_id, query_embedding,
limit, filters)`, so the keyword argument `query_vector` raises `TypeError`
at the call site (and the stub body would raise `NotImplementedError`
anyway). -/
def vectorStoreSearch (_queryVector : List Rat) (_userId : String) :
    Except PyErr (List (String × Rat)) :=
  .error (.typeError "search got an unexpected keyword argument query_vector")

/-- One entry of `search()`'s `combined` list (memory.py lines 300-306). -/
structure RankedResult where
  memory : SerializedMemory
  similarity : Rat
  score : Rat
  deriving Repr, DecidableEq

/-- The lookup dict `mem_by_id = {m.id: m for m in mems}` of `Memory.search`
(memory.py line 277): for duplicate ids the last fetched row wins. -/
def memById (mems : List MemoryModel) (memId : String) : Option MemoryModel :=
  mems.reverse.find? (fun r => r.id == memId)

/-- The `for r in vec_results` loop of `Memory.search` (memory.py lines
283-306): skip ids with no fetched record, skip fetched records whose
status is not `active` (the defensive drop), otherwise serialize (which in
fact raises `AttributeError`, uncaught in `search`) and rank. -/
def buildCombined (mems : List MemoryModel) (now : Int) :
    List (String × Rat) → Except PyErr (List RankedResult)
  | [] => .ok []
  | (memId, score) :: rest =>
    match memById mems memId with
    | none => buildCombined mems now rest
    | some mem =>
      if mem.status ≠ "active" then buildCombined mems now rest
      else
        match serializeMemory mem with
        | .error e => .error e
        | .ok s =>
          match buildCombined mems now rest with
          | .error e => .error e
          | .ok tail =>
            .ok ({ memory := s, similarity := score
                   score := computeRankScore score mem now } :: tail)

/-- Stable insertion step for the final `combined.sort(key=score,
reverse=True)` (memory.py line 309): descending by final score, equal
scores keep their original order. -/
def insertByScoreDesc (x : RankedResult) :
    List RankedResult → List RankedResult
  | [] => [x]
  | y :: ys => if x.score < y.score then y :: insertByScoreDesc x ys
               else x :: y :: ys

/-- Stable descending sort by final score (memory.py line 309). -/
def sortByScoreDesc : List RankedResult → List RankedResult
  | [] => []
  | x :: xs => insertByScoreDesc x (sortByScoreDesc xs)

/-- `Memory.search` (memory.py lines 228-311).  Control flow against the
sources in src/: the lazy expiration is a no-op (`lazyExpireUser`); then
`embed_one` raises `AttributeError`, the `except` returns `{"results": []}`
— so every later step (vector search, fetch, defensive drop, ranking) is
unreachable, though each is embedded above exactly as written.  `limit` and
the caller-supplied `filters` (merged with a default `status: active`) are
omitted: they only parameterise the vector-search call, which raises
`TypeError` regardless of them. -/
def search (now : Int) (store : Store) (query : String) (userId : String) :
    Store × Except PyErr (List RankedResult) :=
  let store1 := lazyExpireUser store userId
  match embedderEmbedOne query with
  | .error _ => (store1, .ok [])
  | .ok qVec =>
    match vectorStoreSearch qVec userId with
    | .error _ => (store1, .ok [])
    | .ok vecResults =>
      let ids := vecResults.map Prod.fst
      if ids = [] then (store1, .ok [])
      else
        let mems := SqliteStore.listByIds store1 ids
        match buildCombined mems now vecResults with
        | .error e => (store1, .error e)
        | .ok combined => (store1, .ok (sortByScoreDesc combined))

end Memory

/-! ## Extractor (`llm/extractor.py`) and the remaining facade operations -/

/-- A chat message `{role, content}`. -/
structure ChatMessage where
  role : String
  content : String
  deriving Repr, DecidableEq

/-- The `messages` argument of `Memory.add`: a plain string or a list of
chat messages (memory.py line 112). -/
inductive MessagesArg where
  | str (s : String)
  | list (l : List ChatMessage)
  deriving Repr, DecidableEq

/-- `FactExtractor.extract_from_messages` (extractor.py lines 33-39): the
body is `return []` for every input. -/
def FactExtractor.extractFromMessages (_messages : List ChatMessage) :
    List FactCandidate :=
  []

namespace Memory

open SqliteStore TemporalEngine

/-- The list comprehension `[self._serialize_memory(m) for m in ...]`
(memory.py lines 200 and 221): serialize each record in order; the first
raised `AttributeError` aborts the comprehension and propagates. -/
def serializeAll : List MemoryModel → Except PyErr (List SerializedMemory)
  | [] => .ok []
  | mem :: rest =>
    match serializeMemory mem with
    | .error e => .error e
    | .ok s =>
      match serializeAll rest with
      | .error e => .error e
      | .ok tail => .ok (s :: tail)

/-- The `isinstance(messages, str)` normalisation of `Memory.add`
(memory.py lines 136-139): a bare string becomes a single user message. -/
def normalizeMessages : MessagesArg → List ChatMessage
  | .str s => [{ role := "user", content := s }]
  | .list l => l

/-- The `if not mem.created_at` backfill of `Memory.add` (memory.py lines
160-161): a missing `created_at` is set to the current instant before the
insert. -/
def ensureCreatedAt (now : Int) (mem : MemoryModel) : MemoryModel :=
  match mem.created_at with
  | none => { mem with created_at := some now }
  | some _ => mem

/-- `Memory.add` (memory.py lines 110-201).  Control flow against the
sources in src/: the lazy expiration is a no-op; `extract_from_messages`
returns `[]` for every input, so the `if not fact_candidates` guard (line
147) returns `{"results": []}` before the temporal engine, the store or the
vector index are ever touched.  The unreachable remainder (process the
batch — which would raise `TypeError`, see `processWriteBatch` — insert,
best-effort indexing, serialization) is embedded after the guard exactly as
written.  `newId` stands for the uuid the temporal engine would mint. -/
def add (now : Int) (newId : String) (store : Store) (messages : MessagesArg)
    (userId : String) (turnId : Option String) :
    Store × Except PyErr (List SerializedMemory) :=
  let store1 := lazyExpireUser store userId
  let msgList := normalizeMessages messages
  let factCandidates := FactExtractor.extractFromMessages msgList
  if factCandidates.isEmpty then (store1, .ok [])
  else
    match processWriteBatch now newId factCandidates userId turnId store1 with
    | (store2, .error e) => (store2, .error e)
    | (store2, .ok memModels) =>
      let memModels := memModels.map (ensureCreatedAt now)
      let store3 := memModels.foldl SqliteStore.insert store2
      -- Indexing loop (lines 165-196): `embed_one` raises `AttributeError`
      -- per record, the `except` swallows it and continues, so the loop
      -- changes nothing.
      match serializeAll memModels with
      | .error e => (store3, .error e)
      | .ok results => (store3, .ok results)

/-- `Memory.list` (memory.py lines 207-222): no-op lazy expiration, fetch by
user and status, serialize each (the first serialization raises
`AttributeError` whenever the fetched list is non-empty). -/
def listOp (store : Store) (userId : String) (status : String) :
    Store × Except PyErr (List SerializedMemory) :=
  let store1 := lazyExpireUser store userId
  match serializeAll (SqliteStore.listByUser store1 userId status) with
  | .error e => (store1, .error e)
  | .ok results => (store1, .ok results)

/-- `Memory.update` (memory.py lines 376-431): fetch by id (missing → `ok
none`, no store change); otherwise set the old record's status to
`archived`, then evaluate the keyword arguments of the replacement
`MemoryModel(...)` — the argument `kind=old.kind` (line 397) reads an
attribute `MemoryModel` does not declare, so `AttributeError` propagates
out of `update` with the old record already archived and nothing inserted.
The unreachable continuation (insert the replacement under the same id,
best-effort reindex, serialize) is embedded after the failing read exactly
as written. -/
def update (now : Int) (store : Store) (memoryId : String)
    (newContent : String) :
    Store × Except PyErr (Option SerializedMemory) :=
  match SqliteStore.getById store memoryId with
  | none => (store, .ok none)
  | some old =>
    let store1 := SqliteStore.updateStatus store memoryId "archived"
    match old.attrKind with
    | .error e => (store1, .error e)
    | .ok _kind =>
      -- pydantic ignores the unknown keyword `kind`, so the replacement
      -- record would carry only the declared fields.
      let newMem : MemoryModel :=
        { id := memoryId, user_id := old.user_id, memory := newContent
          type := old.type, slot := old.slot, status := "active"
          created_at := some now, valid_until := old.valid_until
          decay_half_life_days := old.decay_half_life_days
          confidence := old.confidence, supersedes := [memoryId]
          source_turn_id := old.source_turn_id, extra := old.extra }
      let store2 := SqliteStore.insert store1 newMem
      -- Reindex (lines 411-429): `embed_one` raises, the `except` swallows.
      match serializeMemory newMem with
      | .error e => (store2, .error e)
      | .ok s => (store2, .ok (some s))

end Memory

/-! ## Claim theorems -/

/-- Claim C2 (code bug).  The Policy Engine never reaches its two-tier
decision: for every record and every candidate, `_apply_policies` raises
`AttributeError` on its first statement, because it reads
`fact.duration_in_days` and `FactCandidate` declares no such field. -/
theorem apply_policies_attribute_error (now : Int) (mem : MemoryModel)
    (fact : FactCandidate) :
    TemporalEngine.applyPolicies now mem fact
      = .error (.attributeError "FactCandidate" "duration_in_days") :=
  rfl

/-- Claim C3 (code bug).  The Classifier never returns a `(type, slot)`
pair: `from_fact_candidate` raises `TypeError` for every candidate (it
calls `_apply_policies` without the required `fact` argument, before
conflict resolution), and the kind-routing helper
`_type_and_slot_from_fact` raises `AttributeError` for every candidate
(it reads `fact.kind`, which `FactCandidate` does not declare) — it is
moreover never invoked by `from_fact_candidate`, which classifies by the
category table and the verbatim slot alone.  Only the bare category table
behaves as claimed: an unknown category maps to `other` without raising. -/
theorem classifier_raises (now : Int) (newId : String) (fact : FactCandidate)
    (userId : String) (turnId : Option String) (store : Store) :
    TemporalEngine.fromFactCandidate now newId fact userId turnId store
      = (store, .error (.typeError
          "applyPolicies missing 1 required positional argument: fact"))
    ∧ TemporalEngine.typeAndSlotFromFact fact
      = .error (.attributeError "FactCandidate" "kind")
    ∧ TemporalEngine.mapCategoryToType "not-a-known-category" = "other" :=
  ⟨rfl, rfl, rfl⟩

/-- Claim C9 (confirmed).  `FactExtractor.extract_from_messages` returns the
empty list for every input, so `Memory.add` returns `{"results": []}` for
every argument and leaves the metadata store untouched; the early return
precedes the insert loop and the vector-index upsert loop, so neither is
ever reached. -/
theorem add_returns_empty_without_write (msgs : List ChatMessage) (now : Int)
    (newId : String) (store : Store) (messages : MessagesArg)
    (userId : String) (turnId : Option String) :
    FactExtractor.extractFromMessages msgs = []
    ∧ Memory.add now newId store messages userId turnId = (store, .ok []) :=
  ⟨rfl, rfl⟩

/-- Failing input for claim C8: an active record of user `u1` whose
`valid_until` (259200 = 1970-01-04T00:00:00Z) is in the past at access
time `now = 400000`. -/
def c8OverdueRec : MemoryModel :=
  { id := "m8", user_id := "u1", memory := "in Goa for 3 days"
    type := "temp_state", slot := some "current_location", status := "active"
    created_at := some 0, valid_until := some 259200
    decay_half_life_days := some 1, confidence := 1 }

/-- Claim C8 (code bug).  The lazy expiration sweep transitions nothing:
`SqliteStore` defines no `expire_user_memories`, the resulting
`AttributeError` is swallowed by `_lazy_expire_user`, and the store is
returned unchanged — so at `now = 400000` the record overdue since 259200
still has status `active` and is exactly what `list_by_user` hands to the
read path as an "active" memory. -/
theorem lazy_expiration_noop_code_bug :
    Memory.storeExpireUserMemories [c8OverdueRec] "u1"
      = .error (.attributeError "SqliteStore" "expire_user_memories")
    ∧ Memory.lazyExpireUser [c8OverdueRec] "u1" = [c8OverdueRec]
    ∧ SqliteStore.listByUser (Memory.lazyExpireUser [c8OverdueRec] "u1")
        "u1" "active" = [c8OverdueRec]
    ∧ c8OverdueRec.status = "active"
    ∧ c8OverdueRec.valid_until = some 259200 ∧ (259200 : Int) < 400000 :=
  ⟨rfl, rfl, by decide, rfl, rfl, by decide⟩

/-- Failing input for claim C6: an active record of user `u1` whose
`valid_until` (259200) is past at search time `now = 400000`. -/
def c6ExpiredRec : MemoryModel :=
  { id := "m6", user_id := "u1", memory := "visiting Goa"
    type := "temp_state", slot := some "current_location", status := "active"
    created_at := some 0, valid_until := some 259200
    decay_half_life_days := some 1, confidence := 1 }

/-- Claim C6 (code bug).  At call time the record is nominally active with
`valid_until` in the past; `search` neither expires it (the sweep is a
no-op) nor would the defensive status drop exclude it (its status is still
`active`): the call returns the empty result only because `embed_one`
raises and the handler returns `{"results": []}` for every query, and the
record is left active in the store. -/
theorem search_expired_exclusion_code_bug :
    Memory.search 400000 [c6ExpiredRec] "where is the user" "u1"
      = ([c6ExpiredRec], .ok [])
    ∧ Memory.embedderEmbedOne "where is the user"
      = .error (.attributeError "OpenAIEmbedder" "embed_one")
    ∧ c6ExpiredRec.status = "active"
    ∧ c6ExpiredRec.valid_until = some 259200 ∧ (259200 : Int) < 400000 :=
  ⟨rfl, rfl, rfl, rfl, by decide⟩

/-- Failing input for claim C7: a store holding one record with id `m7`. -/
def c7OldRec : MemoryModel :=
  { id := "m7", user_id := "u1", memory := "lives in City A"
    type := "profile_fact", slot := some "home_location", status := "active"
    created_at := some 0, valid_until := none
    decay_half_life_days := none, confidence := 1 }

/-- Claim C7 (code bug).  `update` on a missing id is indeed a no-op that
signals not-found (`ok none`, store unchanged); but on an existing id it
archives the old record and then raises `AttributeError` evaluating
`kind=old.kind`, so no replacement record is ever inserted and no result is
returned — after the call the store holds only the archived old record. -/
theorem update_archives_then_raises :
    Memory.update 1000 [] "m7" "lives in City B" = ([], .ok none)
    ∧ Memory.update 1000 [c7OldRec] "m7" "lives in City B"
      = ([{ c7OldRec with status := "archived" }],
         .error (.attributeError "MemoryModel" "kind")) :=
  ⟨rfl, rfl⟩

/-- Serializing any non-empty batch fails at the first record's
`"kind": mem.kind` entry. -/
theorem Memory.serializeAll_of_ne_nil (l : List MemoryModel) (h : l ≠ []) :
    Memory.serializeAll l = .error (.attributeError "MemoryModel" "kind") := by
  cases l with
  | nil => exact absurd rfl h
  | cons x xs => rfl

/-- Claim C10 (confirmed).  `_serialize_memory` reads `mem.kind`, which
`MemoryModel` does not declare, so it raises `AttributeError` for every
record; hence any `list()` whose fetched result set is non-empty raises
instead of returning (`add()` and `search()` can never reach a non-empty
result set in these sources, so for them the condition is vacuous), and
`update()` on an existing id raises the same error after the old record has
already been transitioned to `archived`, returning no result. -/
theorem serialize_and_update_kind_attribute_error (store : Store)
    (userId status memId newContent : String) (now : Int)
    (old mem : MemoryModel)
    (hGet : SqliteStore.getById store memId = some old)
    (hNe : SqliteStore.listByUser store userId status ≠ []) :
    Memory.serializeMemory mem = .error (.attributeError "MemoryModel" "kind")
    ∧ (Memory.listOp store userId status).2
      = .error (.attributeError "MemoryModel" "kind")
    ∧ Memory.update now store memId newContent
      = (SqliteStore.updateStatus store memId "archived",
         .error (.attributeError "MemoryModel" "kind")) := by
  refine ⟨rfl, ?_, ?_⟩
  · have h := Memory.serializeAll_of_ne_nil _ hNe
    simp only [Memory.listOp, Memory.lazyExpireUser,
      Memory.storeExpireUserMemories] at h ⊢
    rw [h]
  · simp only [Memory.update, hGet, MemoryModel.attrKind]

/-- Concrete input for the C10 witness: a store with one active record. -/
def c10Rec : MemoryModel :=
  { id := "m10", user_id := "u1", memory := "likes jazz"
    type := "preference", slot := some "music", status := "active"
    created_at := some 0, confidence := 1 }

/-- Witness for claim C10 at a concrete store with one active record. -/
theorem serialize_kind_attribute_error_witness :
    (Memory.listOp [c10Rec] "u1" "active").2
      = .error (.attributeError "MemoryModel" "kind")
    ∧ Memory.update 0 [c10Rec] "m10" "new text"
      = (SqliteStore.updateStatus [c10Rec] "m10" "archived",
         .error (.attributeError "MemoryModel" "kind")) := by
  have h := serialize_and_update_kind_attribute_error [c10Rec] "u1" "active"
    "m10" "new text" 0 c10Rec c10Rec (by decide) (by decide)
  exact ⟨h.2.1, h.2.2⟩

/-- Claim C5 (confirmed).  The final score of `_compute_rank_score` equals
the base similarity plus every matching additive adjustment of the spec's
list, applied independently (the source's `if/elif` chains coincide with
the independent sum because the type conditions are mutually exclusive
string comparisons and the two confidence conditions cannot hold
together): −0.5 for a passed `valid_until`, +0.1 for `profile_fact`,
+0.05 for `preference`, −0.1 for a `temp_state` older than 7 days, −0.05
for an `episodic_event` older than 30 days, −0.2 for confidence < 0.5,
+0.05 for confidence > 0.9. -/
theorem rank_score_matches_spec (b : Rat) (mem : MemoryModel) (now : Int) :
    Memory.computeRankScore b mem now = Memory.rankScoreSpec b mem now := by
  unfold Memory.computeRankScore Memory.rankScoreSpec
  cases hv : mem.valid_until <;> split_ifs <;> simp_all <;>
    first
      | ring1
      | linarith
      | (split_ifs <;> ring1)

/-- A record that is still `active` after the archive loop of
`_resolve_conflicts` was already in the store and its id was not among the
archived ids. -/
theorem mem_archive_foldl (ids : List String) :
    ∀ (store : Store) (r : MemoryModel),
      r ∈ ids.foldl (fun st i => SqliteStore.updateStatus st i "archived") store →
      r.status = "active" → r ∈ store ∧ r.id ∉ ids := by
  induction ids with
  | nil => exact fun store r h _ => ⟨h, by simp⟩
  | cons i ids ih =>
    intro store r h hActive
    obtain ⟨hMem, hNotIn⟩ := ih (SqliteStore.updateStatus store i "archived") r h hActive
    simp only [SqliteStore.updateStatus, List.mem_map] at hMem
    obtain ⟨r0, hr0, heq⟩ := hMem
    by_cases hid : r0.id = i
    · rw [if_pos hid] at heq
      rw [← heq] at hActive
      simp at hActive
    · rw [if_neg hid] at heq
      subst heq
      exact ⟨hr0, by simp [List.mem_cons, hid, hNotIn]⟩

/-- Input showing claim C4 false as stated: a record whose slot is the
empty string — non-null — is handled by the `if not mem.slot` branch. -/
def c4ActiveEmptySlot : MemoryModel :=
  { id := "m0", user_id := "u1", memory := "old value", type := "other"
    slot := some "", status := "active", created_at := some 0 }

/-- The new record of the C4 counterexample, same non-null empty slot. -/
def c4NewEmptySlot : MemoryModel :=
  { id := "m1", user_id := "u1", memory := "new value", type := "other"
    slot := some "", status := "active", created_at := some 10
    supersedes := [] }

/-- Counterexample to claim C4 as stated: the new record's slot is non-null
(`some ""`) and the store holds an active record with the same
`(user_id, slot)`, yet `_resolve_conflicts` returns both the store and the
record unchanged — the predecessor is not archived and `supersedes` is not
populated — because `if not mem.slot` treats the empty string like a null
slot (Python falsiness). -/
theorem conflict_resolver_empty_slot_counterexample :
    c4NewEmptySlot.slot ≠ none
    ∧ c4ActiveEmptySlot.user_id = c4NewEmptySlot.user_id
    ∧ c4ActiveEmptySlot.slot = c4NewEmptySlot.slot
    ∧ c4ActiveEmptySlot.status = "active"
    ∧ TemporalEngine.resolveConflicts [c4ActiveEmptySlot] c4NewEmptySlot
        = ([c4ActiveEmptySlot], c4NewEmptySlot)
    ∧ (TemporalEngine.resolveConflicts [c4ActiveEmptySlot] c4NewEmptySlot).2.supersedes
        ≠ [c4ActiveEmptySlot.id] :=
  ⟨by decide, rfl, rfl, rfl, rfl, by decide⟩

/-- Claim C4 (corrected).  For a new record (empty `supersedes`) whose slot
is non-null **and non-empty**, `_resolve_conflicts` archives every
currently active record of the same `(user_id, slot)` and sets the new
record's `supersedes` to their ids in store-query order; a record whose
slot is null **or the empty string** is returned unchanged with the store
untouched. -/
theorem conflict_resolver_amended (store : Store) (mem : MemoryModel) :
    ((mem.slot = none ∨ mem.slot = some "") →
        TemporalEngine.resolveConflicts store mem = (store, mem))
    ∧ (∀ s, mem.slot = some s → s ≠ "" → mem.supersedes = [] →
        ((TemporalEngine.resolveConflicts store mem).2.supersedes
            = (SqliteStore.getActiveBySlot store mem.user_id s).map
                (fun r => r.id))
        ∧ ∀ r ∈ (TemporalEngine.resolveConflicts store mem).1,
            r.user_id = mem.user_id → r.slot = some s →
            r.status ≠ "active") := by
  constructor
  · rintro (h | h) <;> simp [TemporalEngine.resolveConflicts, h]
  · intro s hs hne hsup
    simp only [TemporalEngine.resolveConflicts, hs, if_neg hne]
    constructor
    · by_cases hid :
        (SqliteStore.getActiveBySlot store mem.user_id s).map (fun r => r.id) = []
      · simp [hid, hsup]
      · simp [hid]
    · intro r hr hu hslot hst
      obtain ⟨hMem, hNotIn⟩ := mem_archive_foldl _ store r hr hst
      apply hNotIn
      apply List.mem_map_of_mem
      simp only [SqliteStore.getActiveBySlot, List.mem_filter]
      refine ⟨hMem, ?_⟩
      simp [hu, hslot, hst]

/-- Store and new record for the C4 witness: a proper non-empty slot. -/
def c4wOld : MemoryModel :=
  { id := "m0", user_id := "u1", memory := "lives in City A"
    type := "profile_fact", slot := some "home_location", status := "active"
    created_at := some 0 }

/-- New record for the C4 witness. -/
def c4wNew : MemoryModel :=
  { id := "m1", user_id := "u1", memory := "lives in City B"
    type := "profile_fact", slot := some "home_location", status := "active"
    created_at := some 100, supersedes := [] }

/-- Witness for the amended claim C4 at a concrete store: the active
predecessor is archived and recorded in `supersedes`. -/
theorem conflict_resolver_amended_witness :
    (TemporalEngine.resolveConflicts [c4wOld] c4wNew).2.supersedes = ["m0"] := by
  have h := (conflict_resolver_amended [c4wOld] c4wNew).2 "home_location"
    rfl (by decide) rfl
  exact h.1.trans (by decide)

/-- A serialized `add`/`update` call against the facade, as in claim C1.
`newId` stands for the uuid the add pipeline would mint for a record. -/
inductive MemOp where
  | add (newId : String) (messages : MessagesArg) (userId : String)
      (turnId : Option String)
  | update (memoryId newContent : String)
  deriving Repr, DecidableEq

/-- Effect of one facade operation on the metadata store (the returned
payload or exception is dropped; exceptions leave the partial effect, which
for `update` is the archive that precedes the failing attribute read). -/
def applyMemOp (now : Int) (store : Store) : MemOp → Store
  | .add newId messages userId turnId =>
    (Memory.add now newId store messages userId turnId).1
  | .update memoryId newContent =>
    (Memory.update now store memoryId newContent).1

/-- Claim C1's invariant: for every user and non-null slot, at most one
record of the store is `active` — stated pairwise. -/
def ActiveSlotUnique (store : Store) : Prop :=
  ∀ r1 ∈ store, ∀ r2 ∈ store,
    r1.status = "active" → r2.status = "active" →
    r1.user_id = r2.user_id → r1.slot = r2.slot → r1.slot ≠ none → r1 = r2

/-- Setting some record's status to `archived` cannot create a second
active record: every record active afterwards was active, unchanged,
before. -/
theorem activeSlotUnique_updateStatus (store : Store) (memId : String)
    (h : ActiveSlotUnique store) :
    ActiveSlotUnique (SqliteStore.updateStatus store memId "archived") := by
  intro r1 h1 r2 h2 ha1 ha2 hu hs hn
  simp only [SqliteStore.updateStatus, List.mem_map] at h1 h2
  obtain ⟨a, haMem, haEq⟩ := h1
  obtain ⟨b, hbMem, hbEq⟩ := h2
  by_cases hida : a.id = memId
  · rw [if_pos hida] at haEq
    rw [← haEq] at ha1
    simp at ha1
  · rw [if_neg hida] at haEq
    by_cases hidb : b.id = memId
    · rw [if_pos hidb] at hbEq
      rw [← hbEq] at ha2
      simp at ha2
    · rw [if_neg hidb] at hbEq
      subst haEq
      subst hbEq
      exact h a haMem b hbMem ha1 ha2 hu hs hn

/-- The store after `Memory.update` is either unchanged (id not found) or
the old store with the target record archived (the `AttributeError` on
`old.kind` aborts the call before any insert). -/
theorem update_fst (now : Int) (store : Store) (memId newContent : String) :
    (Memory.update now store memId newContent).1 = store
    ∨ (Memory.update now store memId newContent).1
      = SqliteStore.updateStatus store memId "archived" := by
  unfold Memory.update
  cases SqliteStore.getById store memId with
  | none => exact Or.inl rfl
  | some old => exact Or.inr rfl

/-- Claim C1 (confirmed).  Every serialized sequence of `add` and `update`
operations preserves at-most-one-active-record-per-(user, non-null slot):
in these sources `add` never mutates the store (extraction yields no
candidates) and `update` at most archives the addressed record before
raising, so no operation can create a second active record for a slot.  In
particular, from an empty store the invariant holds after any sequence. -/
theorem add_update_preserve_active_slot_uniqueness (now : Int)
    (ops : List MemOp) (store : Store) (h : ActiveSlotUnique store) :
    ActiveSlotUnique (ops.foldl (applyMemOp now) store) := by
  induction ops generalizing store with
  | nil => exact h
  | cons op ops ih =>
    apply ih
    cases op with
    | add newId messages userId turnId => exact h
    | update memoryId newContent =>
      show ActiveSlotUnique (Memory.update now store memoryId newContent).1
      rcases update_fst now store memoryId newContent with heq | heq
      · rw [heq]; exact h
      · rw [heq]; exact activeSlotUnique_updateStatus store memoryId h

/-- Store for the C1 witness: one active slotted record. -/
def c1Rec : MemoryModel :=
  { id := "c1", user_id := "u1", memory := "lives in Hyderabad"
    type := "profile_fact", slot := some "home_location", status := "active"
    created_at := some 0 }

/-- Witness for claim C1: a concrete store satisfying the invariant still
satisfies it after an `add` followed by an `update` of the record. -/
theorem active_slot_uniqueness_witness :
    ActiveSlotUnique
      ([MemOp.add "fresh" (.str "I moved") "u1" none,
        MemOp.update "c1" "lives in Bengaluru"].foldl (applyMemOp 500) [c1Rec]) :=
  add_update_preserve_active_slot_uniqueness 500 _ [c1Rec]
    (by unfold ActiveSlotUnique; decide)
